import Mathlib

/-!
Verification development for the Rust-Backend repository: a shallow
embedding of the authentication subsystem (token codec, login and
registration handlers, route table with authorization middleware) and
theorems settling the specification claims about it.

Modelling conventions:
- Rust `i64` timestamps become `Int`; `Uuid` identifiers become `Nat`.
- JWT payloads (the JSON object between the dots of a compact token) are
  modelled as a record of the optional fields that the two payload types
  of the repository (`Claims \x7b name, exp \x7d` and `User`) can carry.
- A signature is modelled as the pair (key, payload) recorded at signing
  time: verification under key `k` succeeds exactly when the recorded key
  is `k` and the recorded payload equals the payload presented, which
  captures both forgery and tampering.
- Fallible Rust functions returning `Result` become `Except`.
-/

/-- The `User` entity of `src/db/src/entities/users.rs` (fields `id`,
`name`, `pass`, `token`); `Uuid` is modelled as `Nat`. -/
structure User where
  id : Nat
  name : String
  pass : String
  token : String
deriving DecidableEq, Repr

/-- A JWT claims payload as a JSON object, restricted to the field names
that occur in the two payload types of the repository: the serialized
`Claims \x7b name, exp \x7d` of `jwt-lib` and the deserialization target
`User`. A missing JSON field is `none`; serde ignores unknown fields, so
deserializing ignores the fields the target does not declare. -/
structure JsonObj where
  id : Option Nat := none
  name : Option String := none
  pass : Option String := none
  token : Option String := none
  exp : Option Int := none
deriving DecidableEq, Repr

/-- A compact JWT, modelled structurally: the payload carried in the
token, plus the key and payload recorded by the signing operation. The
signature verifies under key `k` iff `sigKey = k` and
`sigPayload = payload`. -/
structure Token where
  payload : JsonObj
  sigKey : String
  sigPayload : JsonObj
deriving DecidableEq, Repr

/-- The hardcoded signing secret of `src/jwt-lib/src/lib.rs`
(`"dummy_secret_key"`). -/
def jwtSecret : String := "dummy_secret_key"

/-- Errors of the jsonwebtoken decode path, as observed through
`decode_jwt` (which stringifies them). -/
inductive DecodeErr where
  | invalidSignature
  | missingField (field : String)
  | missingExpClaim
  | expiredSignature
deriving DecidableEq, Repr

/-- Default `exp` leeway of `jsonwebtoken::Validation::default()`:
60 seconds of clock-skew tolerance on the expiry check. -/
def defaultLeeway : Int := 60

/-- Serde deserialization of a JWT payload into `User`
(`decode::<User>` in `decode_jwt`): all four declared fields must be
present (no defaults on the struct), in declaration order `id`, `name`,
`pass`, `token`; unknown fields such as `exp` are ignored. -/
def deserializeUser (p : JsonObj) : Except DecodeErr User :=
  match p.id with
  | none => .error (.missingField "id")
  | some id =>
    match p.name with
    | none => .error (.missingField "name")
    | some name =>
      match p.pass with
      | none => .error (.missingField "pass")
      | some pass =>
        match p.token with
        | none => .error (.missingField "token")
        | some token => .ok ⟨id, name, pass, token⟩

/-- The claim validation of `jsonwebtoken` under `Validation::default()`:
`exp` is a required claim, and with `validate_exp` the token is rejected
as expired when `exp < now - leeway` (default leeway 60 s). -/
def validateClaims (now : Int) (p : JsonObj) : Except DecodeErr Unit :=
  match p.exp with
  | none => .error .missingExpClaim
  | some e => if e < now - defaultLeeway then .error .expiredSignature else .ok ()

/-- Signature verification of `jsonwebtoken::decode`: the recorded signature must have been produced by `key` over exactly the
payload presented. -/
def verifySignature (key : String) (t : Token) : Bool :=
  t.sigKey = key && t.sigPayload = t.payload

/-- Model of `jsonwebtoken::decode::<User>` as called by `decode_jwt`
(src/jwt-lib/src/lib.rs lines 43-55): verify the signature, then
deserialize the payload into `User`, then validate the claims
(`exp` required, expiry checked with the default 60 s leeway), in that
order. `Utc::now()` is the explicit parameter `now`. -/
def decode_jwt (now : Int) (t : Token) : Except DecodeErr User :=
  if verifySignature jwtSecret t then
    match deserializeUser t.payload with
    | .error e => .error e
    | .ok user =>
      match validateClaims now t.payload with
      | .error e => .error e
      | .ok _ => .ok user
  else
    .error .invalidSignature

/-- Model of `get_jwt` (src/jwt-lib/src/lib.rs lines 17-41): encode the payload
`Claims \x7b name = user.name, exp = now + 2 minutes \x7d` signed with
the hardcoded secret. Serialization of `Claims` produces a JSON object
with exactly the fields `name` and `exp`; encoding cannot fail in this
model, matching the infallible serialization of the struct. `Utc::now()`
is the explicit parameter `now` (a Unix timestamp in seconds). -/
def get_jwt (now : Int) (user : User) : Except String Token :=
  let payload : JsonObj := { name := some user.name, exp := some (now + 120) }
  .ok ⟨payload, jwtSecret, payload⟩

/-- A concrete user record used in concrete evaluations. -/
def aliceU : User := ⟨7, "alice", "hashed", "random_text"⟩

/-- C8: for every issued token, the embedded expiry equals issuance time
plus the fixed 2-minute window, and is strictly after issuance. -/
theorem get_jwt_expiry_window (now : Int) (user : User) :
    ∃ tok, get_jwt now user = .ok tok ∧
      tok.payload.exp = some (now + 120) ∧ now < now + 120 := by
  refine ⟨_, rfl, rfl, ?_⟩
  omega

/-- C1 (failing-input evaluation): decoding the token issued by `get_jwt`
for a user fails with a missing-field deserialization error, because
`decode_jwt` deserializes the payload into `User` while `get_jwt` only
encoded the fields `name` and `exp`. Evaluated at issuance time 5 and
decoding time 6, well inside the validity window. -/
theorem decode_of_issued_token_fails :
    (get_jwt 5 aliceU).toOption.map (decode_jwt 6) =
      some (.error (.missingField "id")) := by
  rfl

/-- A token whose payload carries all of the `User` fields together with
an `exp` claim, signed with the server key: the shape a hand-crafted but
validly signed token must have for `decode_jwt` to reach the expiry
check. Its `exp` is 940. -/
def tokFull : Token :=
  let p : JsonObj :=
    { id := some 7, name := some "alice", pass := some "hashed",
      token := some "random_text", exp := some 940 }
  ⟨p, jwtSecret, p⟩

/-- C7 (counterexample): a validly signed token whose expiry 940 lies
before the decoding time 1000 is nevertheless accepted by `decode_jwt`,
because `Validation::default()` applies a 60-second leeway to the expiry
check. -/
theorem decode_expired_within_leeway_accepted :
    (940 : Int) < 1000 ∧
      decode_jwt 1000 tokFull = .ok ⟨7, "alice", "hashed", "random_text"⟩ := by
  exact ⟨by norm_num, rfl⟩

/-- C7 (amended): for every token whose expiry lies more than the default
60-second leeway before the decoding time, `decode_jwt` returns an error
— whatever the signature or payload shape. -/
theorem decode_after_leeway_errors (now : Int) (t : Token) (e : Int)
    (hexp : t.payload.exp = some e) (hlt : e < now - 60) :
    ∃ err, decode_jwt now t = .error err := by
  unfold decode_jwt
  by_cases hs : verifySignature jwtSecret t
  · simp only [hs, if_true]
    cases hdes : deserializeUser t.payload with
    | error err => exact ⟨err, rfl⟩
    | ok user =>
      refine ⟨.expiredSignature, ?_⟩
      simp only [validateClaims, hexp, defaultLeeway, if_pos hlt]
  · exact ⟨.invalidSignature, by simp [hs]⟩

/-- Witness for `decode_after_leeway_errors` at the concrete token
`tokFull` (expiry 940) and decoding time 1100. -/
theorem decode_after_leeway_errors_witness :
    tokFull.payload.exp = some 940 ∧ (940 : Int) < 1100 - 60 ∧
      ∃ err, decode_jwt 1100 tokFull = .error err :=
  ⟨rfl, by norm_num, decode_after_leeway_errors 1100 tokFull 940 rfl (by norm_num)⟩

/-- Response bodies built by the auth handlers via `json!`: an error or
info message, a token payload, or the registered user name. -/
inductive RespBody where
  | msg (text : String)
  | tokenData (t : Token)
  | userName (name : String)
deriving DecidableEq, Repr

/-- An HTTP response of the auth handlers: status code plus JSON body. -/
structure Response where
  status : Nat
  body : RespBody
deriving DecidableEq, Repr

/-- Model of `login_handler` (src/web/src/auth.rs lines 15-72). External effects
are passed in explicitly: `verify` is `bcrypt::verify` (which returns a
`Result<bool>`, erring on a malformed digest); `lookup` is the result of
`find_user_by_name` (`Err` for a database failure, `Ok None` when no row
matches); `now` is `Utc::now()` inside `get_jwt`. The payload is the pair
of optional `name` and `password` fields of the request JSON. -/
def login_handler (verify : String → String → Except Unit Bool) (now : Int)
    (name? : Option String) (pass? : Option String)
    (lookup : Except Unit (Option User)) : Response :=
  match name?, pass? with
  | none, _ => ⟨400, .msg "Missing name or password"⟩
  | _, none => ⟨400, .msg "Missing name or password"⟩
  | some _, some pass =>
    match lookup with
    | .error _ => ⟨500, .msg "Database error"⟩
    | .ok none => ⟨401, .msg "Invalid credentials"⟩
    | .ok (some user) =>
      let password_ok := (verify pass user.pass).toOption.getD false
      if !password_ok then ⟨401, .msg "Invalid credentials"⟩
      else
        match get_jwt now user with
        | .ok token => ⟨200, .tokenData token⟩
        | .error e => ⟨500, .msg e⟩

/-- C3: when the user is found but the password does not verify —
`bcrypt::verify` returning `Ok(false)` on a mismatch or `Err` on a
malformed stored digest — the login response is 401 Unauthorized with
the generic message, never a 500. -/
theorem login_wrong_password_unauthorized
    (verify : String → String → Except Unit Bool) (now : Int)
    (name pass : String) (user : User)
    (hv : verify pass user.pass = .ok false ∨ verify pass user.pass = .error ()) :
    login_handler verify now (some name) (some pass) (.ok (some user)) =
      ⟨401, .msg "Invalid credentials"⟩ := by
  unfold login_handler
  rcases hv with hv | hv <;> simp [hv, Except.toOption]

/-- Witness for `login_wrong_password_unauthorized`: a verifier that
rejects everything, applied to the concrete user `aliceU`. -/
theorem login_wrong_password_unauthorized_witness :
    ((fun _ _ => Except.ok false : String → String → Except Unit Bool) "pw" aliceU.pass
        = .ok false ∨
      (fun _ _ => Except.ok false : String → String → Except Unit Bool) "pw" aliceU.pass
        = .error ()) ∧
    login_handler (fun _ _ => Except.ok false) 0 (some "alice") (some "pw")
        (.ok (some aliceU)) = ⟨401, .msg "Invalid credentials"⟩ :=
  ⟨Or.inl rfl,
    login_wrong_password_unauthorized (fun _ _ => Except.ok false) 0 "alice" "pw"
      aliceU (Or.inl rfl)⟩

/-- C4 (counterexample): at a concrete input, the login response for a
name with no matching user equals the login response for an existing
user with a non-verifying password — both are 401 with the message
"Invalid credentials" — so the reference implementation does not
distinguish the two cases via status codes. -/
theorem login_failures_indistinguishable_concrete :
    login_handler (fun _ _ => Except.ok false) 0 (some "alice") (some "pw")
        (.ok none) =
      login_handler (fun _ _ => Except.ok false) 0 (some "alice") (some "pw")
        (.ok (some aliceU)) ∧
    login_handler (fun _ _ => Except.ok false) 0 (some "alice") (some "pw")
        (.ok none) = ⟨401, .msg "Invalid credentials"⟩ := by
  exact ⟨rfl, rfl⟩

/-- C4 (amended): for every verifier that does not accept the supplied
password, the unknown-name case and the wrong-password case produce the
identical 401 Unauthorized response: login failures are not
distinguishable by status code or body. -/
theorem login_failures_not_distinguished
    (verify : String → String → Except Unit Bool) (now : Int)
    (name pass : String) (user : User)
    (hv : verify pass user.pass = .ok false ∨ verify pass user.pass = .error ()) :
    login_handler verify now (some name) (some pass) (.ok none) =
      login_handler verify now (some name) (some pass) (.ok (some user)) ∧
    login_handler verify now (some name) (some pass) (.ok none) =
      ⟨401, .msg "Invalid credentials"⟩ := by
  constructor
  · rw [login_wrong_password_unauthorized verify now name pass user hv]; rfl
  · rfl

/-- Witness for `login_failures_not_distinguished` at a rejecting
verifier and the concrete user `aliceU`. -/
theorem login_failures_not_distinguished_witness :
    login_handler (fun _ _ => Except.ok false) 3 (some "alice") (some "pw")
        (.ok none) =
      login_handler (fun _ _ => Except.ok false) 3 (some "alice") (some "pw")
        (.ok (some aliceU)) :=
  (login_failures_not_distinguished (fun _ _ => Except.ok false) 3 "alice" "pw"
    aliceU (Or.inl rfl)).1

/-- Errors of `insert_user`: the explicit empty-input rejection in the
function body, or a database error from the INSERT — of which the
name-uniqueness violation is the case relevant here (the users table has
a unique constraint on `name`; the schema is outside the source tree and
the constraint is taken from the data model of the spec). -/
inductive InsertErr where
  | emptyInput
  | uniqueViolation
deriving DecidableEq, Repr

/-- Model of `insert_user` (src/db/src/entities/users.rs lines 45-71) over a
database modelled as a list of user rows. The emptiness check on `name`
and on the ALREADY-HASHED password is verbatim from the source; on
success the row is inserted with the constant token `"random_text"` and
a store-generated id (modelled as the row count). -/
def insert_user (name : String) (hashed_pass : String) (db : List User) :
    Except InsertErr (User × List User) :=
  if name.isEmpty || hashed_pass.isEmpty then .error .emptyInput
  else if db.any (fun u => u.name = name) then .error .uniqueViolation
  else
    let user : User := ⟨db.length, name, hashed_pass, "random_text"⟩
    .ok (user, db ++ [user])

/-- Model of `registeration_handler` (src/web/src/auth.rs lines 75-109).
`hashFn` is `bcrypt::hash` with `DEFAULT_COST` (infallible in normal
operation; the handler unwraps it). The handler checks only that the
`name` and `password` fields are PRESENT in the JSON, hashes the
password, and maps any `insert_user` error to a generic 500. Returns the
response together with the resulting database state. -/
def registeration_handler (hashFn : String → String)
    (name? : Option String) (pass? : Option String) (db : List User) :
    Response × List User :=
  match name?, pass? with
  | none, _ => (⟨400, .msg "Missing name or password"⟩, db)
  | _, none => (⟨400, .msg "Missing name or password"⟩, db)
  | some name, some pass =>
    let hashed_pass := hashFn pass
    match insert_user name hashed_pass db with
    | .error _ => (⟨500, .msg "Database error"⟩, db)
    | .ok (user, db1) => (⟨200, .userName user.name⟩, db1)

/-- Model of `bcrypt::hash` for concrete evaluations: an injective
digest with a fixed version-and-salt header. The property the theorems
rely on is that the digest of ANY plaintext, the empty one included, is
a non-empty string — true of bcrypt, whose digests are 60 characters. -/
def bcryptHash (plain : String) : String := "$2b$12$saltsaltsaltsaltsalts." ++ plain

/-- C10: every row created by `insert_user` carries the constant token
`"random_text"`, whatever name and hashed password were supplied. -/
theorem insert_user_token_constant (name hashed_pass : String) (db : List User)
    (user : User) (db1 : List User)
    (h : insert_user name hashed_pass db = .ok (user, db1)) :
    user.token = "random_text" ∧ db1 = db ++ [user] := by
  unfold insert_user at h
  by_cases h1 : name.isEmpty || hashed_pass.isEmpty
  · simp [h1] at h
  · by_cases h2 : db.any (fun u => u.name = name)
    · simp [h1, h2] at h
    · simp only [h1, h2, Bool.false_eq_true, if_false] at h
      cases h
      exact ⟨rfl, rfl⟩

/-- Witness for `insert_user_token_constant` at a concrete insertion
into the empty store. -/
theorem insert_user_token_constant_witness :
    insert_user "alice" "h1" [] = .ok (⟨0, "alice", "h1", "random_text"⟩,
      [⟨0, "alice", "h1", "random_text"⟩]) ∧
    (⟨0, "alice", "h1", "random_text"⟩ : User).token = "random_text" :=
  ⟨rfl, (insert_user_token_constant "alice" "h1" [] _ _ rfl).1⟩

/-- C5 (counterexample): registering a name that already exists in the
store yields the generic 500 response, not a distinct 409 Conflict: at
the concrete store `[aliceU]` and payload name `"alice"`, the status is
500 and the store is unchanged. -/
theorem register_duplicate_name_is_500 :
    (registeration_handler bcryptHash (some "alice") (some "pw") [aliceU]).1 =
      ⟨500, .msg "Database error"⟩ ∧
    (registeration_handler bcryptHash (some "alice") (some "pw") [aliceU]).2 =
      [aliceU] := by
  exact ⟨rfl, rfl⟩

/-- C5 (amended): a store-level name-uniqueness violation surfaces as
the same generic 500 "Database error" response as any other insert
failure — the handler does not map it to 409 Conflict — and the store is
left unchanged. -/
theorem register_duplicate_name_generic_error (hashFn : String → String)
    (name pass : String) (db : List User)
    (hne : name.isEmpty = false) (hpe : (hashFn pass).isEmpty = false)
    (hdup : db.any (fun u => u.name = name) = true) :
    registeration_handler hashFn (some name) (some pass) db =
      (⟨500, .msg "Database error"⟩, db) := by
  unfold registeration_handler insert_user
  simp [hne, hpe, hdup]

/-- Witness for `register_duplicate_name_generic_error` at the concrete
store `[aliceU]`. -/
theorem register_duplicate_name_generic_error_witness :
    ("alice").isEmpty = false ∧ (bcryptHash "pw").isEmpty = false ∧
    ([aliceU].any (fun u => u.name = "alice") = true) ∧
    registeration_handler bcryptHash (some "alice") (some "pw") [aliceU] =
      (⟨500, .msg "Database error"⟩, [aliceU]) :=
  ⟨rfl, rfl, rfl,
    register_duplicate_name_generic_error bcryptHash "alice" "pw" [aliceU]
      rfl rfl rfl⟩

/-- C6 (failing-input evaluation): registering with an EMPTY password is
accepted: the handler hashes the empty string, `insert_user` checks the
emptiness of the 60-character DIGEST rather than of the plaintext, so a
row is persisted and the response is 200 — contradicting the required
`InvalidInput` rejection. The empty NAME is rejected inside
`insert_user`, but surfaces as a generic 500, not a 4xx client error. -/
theorem register_empty_password_accepted :
    (registeration_handler bcryptHash (some "alice") (some "") []).1.status = 200 ∧
    (registeration_handler bcryptHash (some "alice") (some "") []).2 =
      [⟨0, "alice", bcryptHash "", "random_text"⟩] ∧
    (registeration_handler bcryptHash (some "") (some "pw") []).1 =
      ⟨500, .msg "Database error"⟩ := by
  exact ⟨rfl, rfl, rfl⟩

/-- The string contents of a response body, used to state that a value
(such as a password digest) does not appear in the response. -/
def bodyStrings : RespBody → List String
  | .msg t => [t]
  | .tokenData _ => []
  | .userName n => [n]

/-- Helper: the shape of a successful `insert_user` result — the row
carries exactly the supplied name and hashed password, the constant
token, and the generated id. -/
theorem insert_user_ok_shape (name hashed_pass : String) (db : List User)
    (user : User) (db1 : List User)
    (h : insert_user name hashed_pass db = .ok (user, db1)) :
    user = ⟨db.length, name, hashed_pass, "random_text"⟩ ∧ db1 = db ++ [user] := by
  unfold insert_user at h
  by_cases h1 : name.isEmpty || hashed_pass.isEmpty
  · simp [h1] at h
  · by_cases h2 : db.any (fun u => u.name = name)
    · simp [h1, h2] at h
    · simp only [h1, h2, Bool.false_eq_true, if_false] at h
      cases h
      exact ⟨rfl, rfl⟩

/-- C9: every successful (status 200) registration response has as its
body exactly the name of the created user — the public field — and the
password digest does not occur anywhere in the body (unless the caller
chose the digest itself as the name). -/
theorem register_success_body_public (hashFn : String → String)
    (name pass : String) (db : List User)
    (h200 : (registeration_handler hashFn (some name) (some pass) db).1.status = 200) :
    (registeration_handler hashFn (some name) (some pass) db).1.body =
      .userName name ∧
    (hashFn pass ≠ name →
      hashFn pass ∉ bodyStrings
        (registeration_handler hashFn (some name) (some pass) db).1.body) := by
  unfold registeration_handler at *
  cases hins : insert_user name (hashFn pass) db with
  | error e => simp [hins] at h200
  | ok udb =>
    obtain ⟨user, db1⟩ := udb
    obtain ⟨hu, -⟩ := insert_user_ok_shape name (hashFn pass) db user db1 hins
    subst hu
    simp [hins, bodyStrings]

/-- Witness for `register_success_body_public` at a concrete successful
registration into the empty store. -/
theorem register_success_body_public_witness :
    (registeration_handler bcryptHash (some "alice") (some "pw") []).1.status
        = 200 ∧
    (registeration_handler bcryptHash (some "alice") (some "pw") []).1.body =
      .userName "alice" :=
  ⟨rfl, (register_success_body_public bcryptHash "alice" "pw" [] rfl).1⟩

/-- HTTP methods used by the route table of `init_routes`. -/
inductive Method where
  | get | post | put | delete
deriving DecidableEq, Repr

/-- The handler functions registered in `init_routes`
(src/web/src/routes.rs lines 36-47); the notes handlers are the external
CRUD collaborators, the auth handlers are modelled above. -/
inductive HandlerId where
  | notesDelete | notesUpdate | loginH | registerH
  | notesReadAll | notesCreate | notesReadOne
deriving DecidableEq, Repr

/-- One registered route: method, path pattern (as its list of segments,
so "/notes/\x7bid\x7d" is `["notes", "\x7bid\x7d"]`), handler, and
whether the authorization middleware layer wraps it. -/
structure RouteEntry where
  method : Method
  path : List String
  handler : HandlerId
  layered : Bool
deriving DecidableEq, Repr

/-- Model of `Router::route`: appends a route, not yet wrapped by any layer. -/
def addRoute (rs : List RouteEntry) (m : Method) (p : List String) (h : HandlerId) :
    List RouteEntry :=
  rs ++ [⟨m, p, h, false⟩]

/-- Model of `Router::route_layer` with the auth middleware: axum applies a route
layer to exactly the routes already registered on the router at that
point. -/
def route_layer (rs : List RouteEntry) : List RouteEntry :=
  rs.map fun r => { r with layered := true }

/-- Model of `init_routes` (src/web/src/routes.rs lines 36-47), in source order:
DELETE and PUT on `/notes/{id}` are registered first, then the auth
middleware is attached via `route_layer`, then `/login`, `/register`,
and the remaining notes routes are registered — outside the layer. -/
def init_routes : List RouteEntry :=
  let rs := addRoute [] .delete ["notes", "{id}"] .notesDelete
  let rs := addRoute rs .put ["notes", "{id}"] .notesUpdate
  let rs := route_layer rs
  let rs := addRoute rs .post ["login"] .loginH
  let rs := addRoute rs .post ["register"] .registerH
  let rs := addRoute rs .get ["notes"] .notesReadAll
  let rs := addRoute rs .post ["notes"] .notesCreate
  addRoute rs .get ["notes", "{id}"] .notesReadOne

/-- Path-pattern segment matching: `\x7bid\x7d` matches any segment. -/
def segMatch (pat seg : String) : Bool := pat = "{id}" || pat = seg

/-- Axum path matching, restricted to the patterns of this route table:
segment-wise matching with `\x7bid\x7d` as a wildcard segment. -/
def pathMatch : List String → List String → Bool
  | [], [] => true
  | p :: ps, s :: ss => segMatch p s && pathMatch ps ss
  | _, _ => false

/-- An inbound HTTP request: method, path (as segments), and the
authorization header modelled as an optional token. -/
structure Request where
  method : Method
  path : List String
  authHeader : Option Token

/-- Route resolution: the first registered route whose method and path
pattern match the request. -/
def findRoute (m : Method) (path : List String) : Option RouteEntry :=
  init_routes.find? fun r => r.method == m && pathMatch r.path path

/-- Modelled from the spec: the authorization middleware
`crate::middlewares::auth::auth` (its file, src/web/src/middlewares/auth.rs,
is not present under src/). Per spec §4.4: a request with no
authorization header is rejected with 401 Unauthorized without invoking
the downstream handler; a token that fails to decode is rejected with
401; a valid token yields the resolved subject and the handler runs. -/
def auth (now : Int) (req : Request) : Except Response User :=
  match req.authHeader with
  | none => .error ⟨401, .msg "Unauthorized"⟩
  | some tok =>
    match decode_jwt now tok with
    | .error _ => .error ⟨401, .msg "Unauthorized"⟩
    | .ok u => .ok u

/-- Request dispatch through the routing layer: resolve the route, run
the auth middleware when the route is layered, and otherwise invoke the
handler. The result is the response status together with a flag
recording whether the downstream resource handler was invoked (the
handlers themselves are external collaborators; a successful invocation
is abstracted as status 200). -/
def dispatch (now : Int) (req : Request) : Nat × Bool :=
  match findRoute req.method req.path with
  | none => (404, false)
  | some r =>
    if r.layered then
      match auth now req with
      | .error resp => (resp.status, false)
      | .ok _ => (200, true)
    else (200, true)

/-- C2: a request to a protected mutating route (PUT or DELETE on
`/notes/\x7bid\x7d`) carrying no authorization header is answered 401
and the downstream handler is not invoked; and the middleware layer
wraps exactly the delete and update routes, while login, register, note
creation and the read routes are outside it. -/
theorem protected_routes_gate :
    (∀ (now : Int) (m : Method) (path : List String),
      (m = Method.put ∨ m = Method.delete) →
      pathMatch ["notes", "{id}"] path = true →
      dispatch now ⟨m, path, none⟩ = (401, false)) ∧
    init_routes.map (fun r => (r.handler, r.layered)) =
      [(.notesDelete, true), (.notesUpdate, true), (.loginH, false),
        (.registerH, false), (.notesReadAll, false), (.notesCreate, false),
        (.notesReadOne, false)] := by
  constructor
  · intro now m path hm hp
    rcases hm with hm | hm <;> subst hm
    · simp [dispatch, findRoute, init_routes, addRoute, route_layer,
        List.find?, hp, auth]
      decide
    · simp [dispatch, findRoute, init_routes, addRoute, route_layer,
        List.find?, hp, auth]
  · rfl

/-- Witness for `protected_routes_gate`: a DELETE on a concrete note id
with no authorization header is rejected 401 without handler
invocation. -/
theorem protected_routes_gate_witness :
    dispatch 0 ⟨Method.delete, ["notes", "abc"], none⟩ = (401, false) :=
  protected_routes_gate.1 0 Method.delete ["notes", "abc"] (Or.inr rfl)
    (by decide)
